import Mathlib

/-!
Shallow embedding of the ASCII-Captcha generator (`src/captcha.py`) and
verification of the specification's claims about it.

External collaborators (the Python `random` module, PIL font loading and
rasterization) are modelled as deterministic parameters or abstract states;
the repository's own control flow and arithmetic are translated directly.
Python statements that can raise (list/string indexing) are embedded as
`Except`-valued functions; every other definition is total, mirroring total
Python code.
-/

/-- Deterministic model of a Python `random.Random` pseudo-random source
(`random` module).  The concrete generator is irrelevant to every claim; only
determinism of the stream from a given state matters, so a 64-bit linear
congruential generator stands in for the Mersenne Twister. -/
structure Rng where
  state : Nat
deriving DecidableEq

/-- One raw draw from the source, with the advanced state. -/
def Rng.next (r : Rng) : Nat × Rng :=
  let s := (r.state * 6364136223846793005 + 1442695040888963407) % 2 ^ 64
  (s, Rng.mk s)

/-- Model of `rng.randint(a, b)`: a uniform integer in `[a, b]`, both ends
included. -/
def Rng.randint (a b : Int) (r : Rng) : Int × Rng :=
  let n := r.next
  (a + (n.1 : Int) % (b - a + 1), n.2)

/-- Model of the test `rng.random() < 0.5`. -/
def Rng.coin (r : Rng) : Bool × Rng :=
  let n := r.next
  (n.1 % 2 = 0, n.2)

/-- Model of `rng.choice` over a sequence of `n` options: a uniform index in
`[0, n)`. -/
def Rng.choice_idx (n : Nat) (r : Rng) : Nat × Rng :=
  let x := r.next
  (x.1 % n, x.2)

/-- Model of `random.Random(seed)`: a fresh source determined by the seed
alone. -/
def mk_random (seed : Int) : Rng :=
  Rng.mk ((seed % 2 ^ 64).toNat)

/-- Model of a PIL font object: either a TrueType font loaded from a path at
a pixel size (`ImageFont.truetype`) or the built-in bitmap fallback
(`ImageFont.load_default`). -/
inductive FontHandle where
  | truetype (path : String) (size : Nat)
  | load_default
deriving DecidableEq

/-- The candidate list built by `_load_font` (captcha.py lines 142-149): the
preferred path first when it is truthy, then the fixed list of common
monospace font locations. -/
def font_candidates (preferred : Option String) : List String :=
  (match preferred with
   | some p => if p = "" then [] else [p]
   | none => []) ++
  ["consola.ttf",
   "DejaVuSansMono.ttf",
   "/usr/share/fonts/truetype/dejavu/DejaVuSansMono.ttf",
   "Menlo.ttf",
   "Courier New.ttf"]

/-- The `for path in candidates` loop of `_load_font`: skip falsy paths, try
`ImageFont.truetype(path, size)` (modelled by the `can_load` oracle; the
`except` clause swallows every failure), and fall back to
`ImageFont.load_default()` when no candidate loads. -/
def try_candidates (can_load : String → Nat → Bool) (size : Nat) :
    List String → FontHandle
  | [] => FontHandle.load_default
  | p :: rest =>
    if p = "" then try_candidates can_load size rest
    else if can_load p size then FontHandle.truetype p size
    else try_candidates can_load size rest

/-- `_load_font(preferred, size)` (captcha.py lines 141-157).  Total by
construction: every exception of the source is caught inside the loop. -/
def load_font (can_load : String → Nat → Bool) (preferred : Option String)
    (size : Nat) : FontHandle :=
  try_candidates can_load size (font_candidates preferred)

/-- `string.ascii_uppercase + string.digits`, the alphabet used by
`generate_code`. -/
def code_alphabet : List Char := "ABCDEFGHIJKLMNOPQRSTUVWXYZ0123456789".data

/-- Model of `rng.choices(population, k=k)`: `k` independent uniform draws
with replacement. -/
def rand_choices (population : List Char) : Nat → Rng → List Char × Rng
  | 0, rng => ([], rng)
  | k + 1, rng =>
    let n := rng.next
    let c := population.getD (n.1 % population.length) ' '
    let rest := rand_choices population k n.2
    (c :: rest.1, rest.2)

/-- `generate_code(length, rng)` (captcha.py lines 136-139).  As in the
source, a non-positive `length` simply yields zero draws (Python
`random.choices` with `k <= 0` returns an empty list); nothing is raised. -/
def generate_code (length : Int) (rng : Rng) : String × Rng :=
  let cs := rand_choices code_alphabet length.toNat rng
  (String.mk cs.1, cs.2)

/-- The palette index `p * (len(ascii_chars) - 1) // 255` computed at
captcha.py line 169. -/
def ascii_index (n p : Nat) : Nat := p * (n - 1) / 255

/-- The per-pixel mapping `ascii_chars[p * (len(ascii_chars) - 1) // 255]` of
captcha.py line 169; `none` models the `IndexError` raised when the computed
index is out of range (possible only for an empty palette). -/
def char_of_lum (ascii_chars : List Char) (p : Nat) : Option Char :=
  ascii_chars[ascii_index ascii_chars.length p]?

/-- The `"".join(ascii_chars[...] for p in pixels)` generator expression of
captcha.py line 169, over the whole luminance list of one glyph; the first
out-of-range index aborts with the error, as the Python expression raises. -/
def map_lums (ascii_chars : List Char) : List Nat → Except String (List Char)
  | [] => Except.ok []
  | p :: ps =>
    match char_of_lum ascii_chars p with
    | none => Except.error "IndexError: string index out of range"
    | some c =>
      match map_lums ascii_chars ps with
      | Except.error e => Except.error e
      | Except.ok cs => Except.ok (c :: cs)

/-- The row slicing `[ascii_str[i : i + img.width] for i in range(0, len(ascii_str), img.width)]`
of captcha.py line 170.  The fuel argument (the list length at the first
call) makes the recursion structural; the step width used by the source is
always at least 1. -/
def chunk_rows (w : Nat) : Nat → List Char → List (List Char)
  | 0, _ => []
  | _ + 1, [] => []
  | fuel + 1, l => l.take w :: chunk_rows w fuel (l.drop w)

/-- The per-character loop of `_text_to_ascii_lines` (captcha.py lines
164-171).  The PIL steps `Image.new` / `ImageDraw.text` / `resize` /
`getdata` are modelled by the `raster` oracle, which returns the luminance
list of the downscaled glyph image for the resolved font. -/
def glyph_blocks (ascii_chars : List Char) (raster : FontHandle → Char → List Nat)
    (font : FontHandle) (w : Nat) :
    List Char → Except String (List (List (List Char)))
  | [] => Except.ok []
  | ch :: rest =>
    match map_lums ascii_chars (raster font ch) with
    | Except.error e => Except.error e
    | Except.ok s =>
      match glyph_blocks ascii_chars raster font w rest with
      | Except.error e => Except.error e
      | Except.ok bs => Except.ok (chunk_rows w s.length s :: bs)

/-- The inner `b[r] for b in blocks` of captcha.py line 174; a block shorter
than row `r` raises, as in the source. -/
def block_rows (r : Nat) : List (List (List Char)) → Except String (List (List Char))
  | [] => Except.ok []
  | b :: bs =>
    match b[r]? with
    | none => Except.error "IndexError: list index out of range"
    | some row =>
      match block_rows r bs with
      | Except.error e => Except.error e
      | Except.ok rows => Except.ok (row :: rows)

/-- The `for r in range(len(blocks[0]))` loop of captcha.py lines 173-174:
each combined line joins the r-th row of every block with the fixed
three-space separator. -/
def combine_rows (blocks : List (List (List Char))) :
    List Nat → Except String (List (List Char))
  | [] => Except.ok []
  | r :: rs =>
    match block_rows r blocks with
    | Except.error e => Except.error e
    | Except.ok rows =>
      match combine_rows blocks rs with
      | Except.error e => Except.error e
      | Except.ok out => Except.ok (List.intercalate [' ', ' ', ' '] rows :: out)

/-- `_text_to_ascii_lines(text, font_path, font_size, scale, ascii_chars)`
(captcha.py lines 159-175).  `w` is the width of the downscaled glyph image,
`max(1, (font_size * 2) // scale)`.  Spaces are removed from the text before
rasterization (`text.replace(" ", "")`); when that leaves no glyph at all the
access `blocks[0]` of line 173 raises `IndexError`, which the `Except.error`
branch records. -/
def text_to_ascii_lines (can_load : String → Nat → Bool)
    (raster : FontHandle → Char → List Nat) (font_path : Option String)
    (font_size scale : Nat) (ascii_chars : List Char) (text : List Char) :
    Except String (List (List Char)) :=
  if text = [] then Except.ok []
  else
    let font := load_font can_load font_path font_size
    let w := max 1 (font_size * 2 / scale)
    match glyph_blocks ascii_chars raster font w (text.filter (fun c => c != ' ')) with
    | Except.error e => Except.error e
    | Except.ok [] => Except.error "IndexError: list index out of range"
    | Except.ok (b0 :: bs) => combine_rows (b0 :: bs) (List.range b0.length)

/-- The `text_to_ascii` configuration group (captcha.py lines 23-27). -/
structure TextToAsciiParams where
  font_path : Option String := none
  font_size : Nat := 40
  scale : Nat := 2

/-- The `render` configuration group (captcha.py lines 29-41).  The three
Python floats are carried as rationals. -/
structure RenderParams where
  font_path : Option String := none
  font_size : Nat := 9
  spacing : Nat := 1
  noise_lines : Nat := 24
  blur_shapes : Nat := 40
  apply_blur : Bool := true
  extra_noise_shapes : Nat := 30
  pixel_noise_density : ℚ := 4 / 100
  jitter : Nat := 1
  gaussian_blur_radius : ℚ := 11 / 10
  shape_blur_radius : ℚ := 2

/-- `AppConfig` (captcha.py lines 43-59). -/
structure AppConfig where
  output : String := "captcha.png"
  print_code : Bool := false
  data_url_output : Option String := none
  code_length : Int := 6
  random_seed : Option Int := none
  fixed_code : Option String := none
  ascii_chars : String := "$@B%8&WM# "
  text_to_ascii : TextToAsciiParams := {}
  render : RenderParams := {}

/-- One drawing command issued while composing the raster.  The raster image
is modelled as its dimensions plus the exact ordered trace of PIL commands
with all their arguments, which determines the pixel output of the real
library. -/
inductive DrawOp where
  | text (font : FontHandle) (x y : Int) (ch : Char)
  | line (x1 y1 x2 y2 : Int) (g w : Int)
  | ellipse (x1 y1 x2 y2 : Int) (g a : Int)
  | rectangle (x1 y1 x2 y2 : Int) (g a : Int)
  | arc (x1 y1 x2 y2 : Int) (s e : Int) (g : Int)
  | chord (x1 y1 x2 y2 : Int) (s e : Int) (g a : Int)
  | polygon (p1 p2 p3 : Int × Int) (g a : Int)
  | point (x y : Int) (v : Int)
  | gaussian_blur (radius : ℚ)
  | alpha_composite (overlay : List DrawOp)

/-- Model of a PIL image: pixel-buffer dimensions plus the trace of commands
that produced its contents. -/
structure PilImage where
  width : Nat
  height : Nat
  ops : List DrawOp

/-- `max(len(line) for line in ascii_lines)` (captcha.py line 185); the fold
agrees with Python `max` on every non-empty list. -/
def max_line_len (lines : List (List Char)) : Nat :=
  lines.foldr (fun l m => max l.length m) 0

/-- `int(total * params.pixel_noise_density)` (captcha.py line 244), written
over the rational's numerator and denominator so that it is plain integer
arithmetic. -/
def speckle_count (total : Nat) (density : ℚ) : Nat :=
  ((total : Int) * density.num / (density.den : Int)).toNat

/-- The inner character loop of the jittered text draw (captcha.py lines
194-197), for the row with index `r`; `c` is the running column index. -/
def draw_text_row (font : FontHandle) (char_w char_h jitter : Nat) (r : Nat) :
    List Char → Nat → Rng → List DrawOp × Rng
  | [], _, rng => ([], rng)
  | ch :: rest, c, rng =>
    let jx := Rng.randint (-(jitter : Int)) jitter rng
    let jy := Rng.randint (-(jitter : Int)) jitter jx.2
    let x := (c * char_w : Nat) + jx.1
    let y := (r * char_h : Nat) + jy.1
    let tail := draw_text_row font char_w char_h jitter r rest (c + 1) jy.2
    (DrawOp.text font x y ch :: tail.1, tail.2)

/-- The outer row loop of the jittered text draw (captcha.py lines 193-197);
`r` is the running row index. -/
def draw_text_rows (font : FontHandle) (char_w char_h jitter : Nat) :
    List (List Char) → Nat → Rng → List DrawOp × Rng
  | [], _, rng => ([], rng)
  | line :: rest, r, rng =>
    let row := draw_text_row font char_w char_h jitter r line 0 rng
    let tail := draw_text_rows font char_w char_h jitter rest (r + 1) row.2
    (row.1 ++ tail.1, tail.2)

/-- The random gray line loop (captcha.py lines 200-205). -/
def draw_noise_lines (width height : Nat) : Nat → Rng → List DrawOp × Rng
  | 0, rng => ([], rng)
  | n + 1, rng =>
    let x1 := Rng.randint 0 width rng
    let y1 := Rng.randint 0 height x1.2
    let x2 := Rng.randint 0 width y1.2
    let y2 := Rng.randint 0 height x2.2
    let g := Rng.randint 100 180 y2.2
    let t := Rng.randint 1 2 g.2
    let tail := draw_noise_lines width height n t.2
    (DrawOp.line x1.1 y1.1 x2.1 y2.1 g.1 t.1 :: tail.1, tail.2)

/-- The translucent blurry shape loop (captcha.py lines 210-217), drawn onto
the transparent overlay. -/
def draw_blur_shapes (width height : Nat) : Nat → Rng → List DrawOp × Rng
  | 0, rng => ([], rng)
  | n + 1, rng =>
    let x1 := Rng.randint 0 (max 0 ((width : Int) - 30)) rng
    let y1 := Rng.randint 0 (max 0 ((height : Int) - 30)) x1.2
    let dx := Rng.randint 15 50 y1.2
    let dy := Rng.randint 15 50 dx.2
    let x2 := x1.1 + dx.1
    let y2 := y1.1 + dy.1
    let g := Rng.randint 90 160 dy.2
    let a := Rng.randint 60 120 g.2
    let flip := Rng.coin a.2
    let op := if flip.1 then DrawOp.ellipse x1.1 y1.1 x2 y2 g.1 a.1
              else DrawOp.rectangle x1.1 y1.1 x2 y2 g.1 a.1
    let tail := draw_blur_shapes width height n flip.2
    (op :: tail.1, tail.2)

/-- The extra shape variety loop (captcha.py lines 219-235): one of arc,
chord, triangle or circle, chosen uniformly, on the same overlay. -/
def draw_extra_shapes (width height : Nat) : Nat → Rng → List DrawOp × Rng
  | 0, rng => ([], rng)
  | n + 1, rng =>
    let x1 := Rng.randint 0 (max 0 ((width : Int) - 50)) rng
    let y1 := Rng.randint 0 (max 0 ((height : Int) - 50)) x1.2
    let dx := Rng.randint 10 50 y1.2
    let dy := Rng.randint 10 50 dx.2
    let x2 := x1.1 + dx.1
    let y2 := y1.1 + dy.1
    let g := Rng.randint 60 180 dy.2
    let a := Rng.randint 40 100 g.2
    let pick := Rng.choice_idx 4 a.2
    let step :=
      if pick.1 = 0 then
        let s := Rng.randint 0 360 pick.2
        let e := Rng.randint 0 360 s.2
        (DrawOp.arc x1.1 y1.1 x2 y2 s.1 e.1 g.1, e.2)
      else if pick.1 = 1 then
        let s := Rng.randint 0 360 pick.2
        let e := Rng.randint 0 360 s.2
        (DrawOp.chord x1.1 y1.1 x2 y2 s.1 e.1 g.1 a.1, e.2)
      else if pick.1 = 2 then
        (DrawOp.polygon (x1.1, y1.1) (x2, y1.1) ((x1.1 + x2) / 2, y2) g.1 a.1, pick.2)
      else
        let rad := (x2 - x1.1) / 2
        (DrawOp.ellipse x1.1 y1.1 (x1.1 + rad * 2) (y1.1 + rad * 2) g.1 a.1, pick.2)
    let tail := draw_extra_shapes width height n step.2
    (step.1 :: tail.1, tail.2)

/-- The per-pixel speckle loop (captcha.py lines 242-247): positions sampled
independently, possibly revisiting the same pixel. -/
def draw_pixel_noise (width height : Nat) : Nat → Rng → List DrawOp × Rng
  | 0, rng => ([], rng)
  | n + 1, rng =>
    let x := Rng.randint 0 ((width : Int) - 1) rng
    let y := Rng.randint 0 ((height : Int) - 1) x.2
    let v := Rng.randint 0 255 y.2
    let tail := draw_pixel_noise width height n v.2
    (DrawOp.point x.1 y.1 v.1 :: tail.1, tail.2)

/-- `make_image(ascii_lines, params, rng)` (captcha.py lines 177-252).  The
empty-canvas branch returns the minimal 2x2 white image; otherwise the cell
sizes, canvas dimensions and the strictly ordered layer sequence (jittered
text, gray lines, blurred shape overlay composited after its own blur,
pixel speckle, optional final blur) follow the source line by line. -/
def make_image (can_load : String → Nat → Bool) (ascii_lines : List (List Char))
    (params : RenderParams) (rng : Rng) : PilImage × Rng :=
  if ascii_lines = [] then ({ width := 2, height := 2, ops := [] }, rng)
  else
    let char_w := params.font_size / 2 + params.spacing
    let char_h := params.font_size + 2
    let width := char_w * max_line_len ascii_lines
    let height := char_h * ascii_lines.length
    let font := load_font can_load params.font_path params.font_size
    let tr := draw_text_rows font char_w char_h params.jitter ascii_lines 0 rng
    let nl := draw_noise_lines width height params.noise_lines tr.2
    let bs := draw_blur_shapes width height params.blur_shapes nl.2
    let es := draw_extra_shapes width height params.extra_noise_shapes bs.2
    let overlay := bs.1 ++ es.1 ++
      (if params.shape_blur_radius > 0 then [DrawOp.gaussian_blur params.shape_blur_radius] else [])
    let sp := draw_pixel_noise width height
      (speckle_count (width * height) params.pixel_noise_density) es.2
    let final := if params.apply_blur = true ∧ params.gaussian_blur_radius > 0
      then [DrawOp.gaussian_blur params.gaussian_blur_radius] else []
    ({ width := width, height := height,
       ops := tr.1 ++ nl.1 ++ [DrawOp.alpha_composite overlay] ++ sp.1 ++ final }, sp.2)

/-- The body of `generate_image_from_cfg` after the code has been selected
(captcha.py lines 266-274): rasterize the code to ASCII lines with the
`text_to_ascii` group and the configured palette, then render with the
`render` group.  An exception from the ASCII stage propagates. -/
def render_with_code (can_load : String → Nat → Bool)
    (raster : FontHandle → Char → List Nat) (cfg : AppConfig)
    (code_rng : String × Rng) : Except String (PilImage × String) × Rng :=
  match text_to_ascii_lines can_load raster cfg.text_to_ascii.font_path
      cfg.text_to_ascii.font_size cfg.text_to_ascii.scale cfg.ascii_chars.data
      code_rng.1.data with
  | Except.error e => (Except.error e, code_rng.2)
  | Except.ok lines =>
    let mi := make_image can_load lines cfg.render code_rng.2
    (Except.ok (mi.1, code_rng.1), mi.2)

/-- The code selection `cfg.fixed_code or generate_code(cfg.code_length, rng=rng)`
of captcha.py line 265: Python `or` uses the fixed code only when it is
truthy, so `None` and the empty string both fall through to the generator. -/
def select_code (cfg : AppConfig) (rng : Rng) : String × Rng :=
  match cfg.fixed_code with
  | some c => if c = "" then generate_code cfg.code_length rng else (c, rng)
  | none => generate_code cfg.code_length rng

/-- `generate_image_from_cfg` with the generation source already resolved:
the code selection of captcha.py line 265 followed by the ASCII and render
stages. -/
def generate_from_cfg_with (can_load : String → Nat → Bool)
    (raster : FontHandle → Char → List Nat) (cfg : AppConfig) (rng : Rng) :
    Except String (PilImage × String) × Rng :=
  render_with_code can_load raster cfg (select_code cfg rng)

/-- `generate_image_from_cfg(cfg)` (captcha.py lines 262-274).  Line 264
chooses the source: a fresh `random.Random(cfg.random_seed)` when a seed is
configured, otherwise the process-wide shared `random` module, whose mutable
state is threaded in and out as `global_rng`. -/
def generate_image_from_cfg (can_load : String → Nat → Bool)
    (raster : FontHandle → Char → List Nat) (cfg : AppConfig)
    (global_rng : Rng) : Except String (PilImage × String) × Rng :=
  match cfg.random_seed with
  | some s => ((generate_from_cfg_with can_load raster cfg (mk_random s)).1, global_rng)
  | none => generate_from_cfg_with can_load raster cfg global_rng

/-- The `text_to_ascii` group of a parsed user configuration file: each field
is present or absent (captcha.py lines 80-84). -/
structure UserTextToAscii where
  font_path : Option (Option String) := none
  font_size : Option Nat := none
  scale : Option Nat := none

/-- The `render` group of a parsed user configuration file (captcha.py lines
85-97). -/
structure UserRender where
  font_path : Option (Option String) := none
  font_size : Option Nat := none
  spacing : Option Nat := none
  noise_lines : Option Nat := none
  blur_shapes : Option Nat := none
  apply_blur : Option Bool := none
  extra_noise_shapes : Option Nat := none
  pixel_noise_density : Option ℚ := none
  jitter : Option Nat := none
  gaussian_blur_radius : Option ℚ := none
  shape_blur_radius : Option ℚ := none

/-- A parsed user configuration file (the JSON dictionary handed to
`load_config` after `json.load`; the file I/O and parsing are external).
Every key may be absent; `_deep_update` then keeps the default for it. -/
structure UserConfig where
  output : Option String := none
  print_code : Option Bool := none
  data_url_output : Option (Option String) := none
  code_length : Option Int := none
  random_seed : Option (Option Int) := none
  fixed_code : Option (Option String) := none
  ascii_chars : Option String := none
  text_to_ascii : Option UserTextToAscii := none
  render : Option UserRender := none

/-- `load_config(path)` (captcha.py lines 70-134) applied to the parsed user
dictionary: `_deep_update(defaults, user)` followed by the dataclass
construction.  Field-wise defaulting reproduces the dictionary merge, with
nested groups merged field by field.  No value is validated; in particular
`ascii_chars` is passed through whatever its length. -/
def load_config (user : UserConfig) : AppConfig :=
  let tta := user.text_to_ascii.getD {}
  let rp := user.render.getD {}
  { output := user.output.getD "captcha.png"
    print_code := user.print_code.getD false
    data_url_output := user.data_url_output.getD none
    code_length := user.code_length.getD 6
    random_seed := user.random_seed.getD none
    fixed_code := user.fixed_code.getD none
    ascii_chars := user.ascii_chars.getD "$@B%8&WM# "
    text_to_ascii :=
      { font_path := tta.font_path.getD none
        font_size := tta.font_size.getD 40
        scale := tta.scale.getD 2 }
    render :=
      { font_path := rp.font_path.getD none
        font_size := rp.font_size.getD 9
        spacing := rp.spacing.getD 1
        noise_lines := rp.noise_lines.getD 24
        blur_shapes := rp.blur_shapes.getD 40
        apply_blur := rp.apply_blur.getD true
        extra_noise_shapes := rp.extra_noise_shapes.getD 30
        pixel_noise_density := rp.pixel_noise_density.getD (4 / 100)
        jitter := rp.jitter.getD 1
        gaussian_blur_radius := rp.gaussian_blur_radius.getD (11 / 10)
        shape_blur_radius := rp.shape_blur_radius.getD 2 } }

/-- A font oracle under which no TrueType candidate loads. -/
def can_load_none : String → Nat → Bool := fun _ _ => false

/-- A glyph raster oracle producing a single black pixel per glyph. -/
def raster_one : FontHandle → Char → List Nat := fun _ _ => [0]

/-- A glyph raster oracle producing one black and one white pixel. -/
def raster_pair : FontHandle → Char → List Nat := fun _ _ => [0, 255]

/-- A configuration with a seed and a non-empty fixed code. -/
def cfg_seeded : AppConfig := { random_seed := some 42, fixed_code := some "AB" }

/-- A configuration supplying the empty string as the fixed code. -/
def cfg_empty_fixed : AppConfig := { random_seed := some 0, fixed_code := some "" }

/-- A user configuration file supplying a one-character palette. -/
def user_short_palette : UserConfig := { ascii_chars := some "#" }

/-- The default render parameters. -/
def rp_default : RenderParams := {}

/-- A one-line, one-character ASCII canvas. -/
def lines_one : List (List Char) := [['A']]

/-- The default dark-to-light palette as a character list. -/
def default_palette : List Char := "$@B%8&WM# ".data

/-- A two-character palette. -/
def palette_two : List Char := ['#', ' ']

/-- The palette index is at most `n - 1` for luminances in byte range. -/
theorem ascii_index_le (n p : Nat) (hp : p ≤ 255) : ascii_index n p ≤ n - 1 := by
  unfold ascii_index
  calc p * (n - 1) / 255 ≤ 255 * (n - 1) / 255 :=
        Nat.div_le_div_right (Nat.mul_le_mul_right _ hp)
    _ = n - 1 := Nat.mul_div_cancel_left _ (by norm_num)

/-- The palette index stays in range for every non-empty palette. -/
theorem ascii_index_lt (n p : Nat) (hn : 1 ≤ n) (hp : p ≤ 255) :
    ascii_index n p < n := by
  have h := ascii_index_le n p hp
  omega

/-- The luminance-to-index map is monotone. -/
theorem ascii_index_mono (n : Nat) {p q : Nat} (h : p ≤ q) :
    ascii_index n p ≤ ascii_index n q :=
  Nat.div_le_div_right (Nat.mul_le_mul_right _ h)

/-- Pure black maps to the first (darkest) palette character. -/
theorem char_of_lum_zero (pal : List Char) : char_of_lum pal 0 = pal.head? := by
  unfold char_of_lum ascii_index
  cases pal <;> simp

/-- Pure white maps to the last (lightest) palette character. -/
theorem char_of_lum_255 (pal : List Char) :
    char_of_lum pal 255 = pal.getLast? := by
  unfold char_of_lum ascii_index
  rw [Nat.mul_div_cancel_left _ (by norm_num : 0 < 255), List.getLast?_eq_getElem?]

/-- Mapping a luminance list on which every pixel maps to one character
yields that character repeatedly, with no index fault. -/
theorem map_lums_of_forall (pal : List Char) (cd : Char) :
    ∀ pix : List Nat, (∀ p ∈ pix, char_of_lum pal p = some cd) →
      map_lums pal pix = Except.ok (List.replicate pix.length cd) := by
  intro pix
  induction pix with
  | nil => intro _; rfl
  | cons p ps ih =>
    intro h
    have hp := h p (List.mem_cons_self p ps)
    have hps := ih (fun q hq => h q (List.mem_cons_of_mem p hq))
    simp [map_lums, hp, hps, List.replicate_succ]

/-- On a two-character palette every byte-range luminance maps to one of the
two characters. -/
theorem char_of_lum_pair (c0 c1 : Char) (p : Nat) (hp : p ≤ 255) :
    char_of_lum [c0, c1] p = some c0 ∨ char_of_lum [c0, c1] p = some c1 := by
  have h : ascii_index 2 p ≤ 1 := ascii_index_le 2 p hp
  rcases Nat.le_one_iff_eq_zero_or_eq_one.mp h with h0 | h1
  · left; unfold char_of_lum; rw [show ([c0, c1] : List Char).length = 2 from rfl, h0]; rfl
  · right; unfold char_of_lum; rw [show ([c0, c1] : List Char).length = 2 from rfl, h1]; rfl

/-- Mapping a luminance list all of whose pixels map inside the palette
succeeds and produces only palette characters. -/
theorem map_lums_mem (pal : List Char) :
    ∀ pix : List Nat, (∀ p ∈ pix, ∃ c, char_of_lum pal p = some c ∧ c ∈ pal) →
      ∃ s, map_lums pal pix = Except.ok s ∧ ∀ c ∈ s, c ∈ pal := by
  intro pix
  induction pix with
  | nil => intro _; exact ⟨[], rfl, by simp⟩
  | cons p ps ih =>
    intro h
    obtain ⟨c, hc, hcm⟩ := h p (List.mem_cons_self p ps)
    obtain ⟨s, hs, hsm⟩ := ih (fun q hq => h q (List.mem_cons_of_mem p hq))
    refine ⟨c :: s, ?_, ?_⟩
    · simp [map_lums, hc, hs]
    · intro d hd
      rcases List.mem_cons.mp hd with rfl | hd
      · exact hcm
      · exact hsm d hd

/-- `rand_choices` returns exactly the requested number of characters. -/
theorem rand_choices_length (pop : List Char) :
    ∀ (k : Nat) (rng : Rng), (rand_choices pop k rng).1.length = k := by
  intro k
  induction k with
  | zero => intro _; rfl
  | succ k ih => intro rng; simp [rand_choices, ih]

/-- Every character returned by `rand_choices` comes from the population. -/
theorem rand_choices_mem (pop : List Char) (hp : pop ≠ []) :
    ∀ (k : Nat) (rng : Rng) (c : Char), c ∈ (rand_choices pop k rng).1 → c ∈ pop := by
  intro k
  induction k with
  | zero => intro rng c hc; simp [rand_choices] at hc
  | succ k ih =>
    intro rng c hc
    have hlen : 0 < pop.length := List.length_pos.mpr hp
    simp only [rand_choices] at hc
    rcases List.mem_cons.mp hc with rfl | hc
    · have hlt : (rng.next.1 % pop.length) < pop.length := Nat.mod_lt _ hlen
      rw [List.getD_eq_getElem?_getD, List.getElem?_eq_getElem hlt]
      exact List.getElem_mem _
    · exact ih _ _ hc

/-- The candidate loop returns the fallback or a font that the oracle loaded
from one of the candidates. -/
theorem try_candidates_spec (can_load : String → Nat → Bool) (size : Nat) :
    ∀ cs : List String, try_candidates can_load size cs = FontHandle.load_default ∨
      ∃ p ∈ cs, can_load p size = true ∧
        try_candidates can_load size cs = FontHandle.truetype p size := by
  intro cs
  induction cs with
  | nil => left; rfl
  | cons p rest ih =>
    by_cases hp : p = ""
    · rcases ih with h | ⟨q, hq, hcl, he⟩
      · left; simpa [try_candidates, hp] using h
      · right; exact ⟨q, List.mem_cons_of_mem p hq, hcl, by simpa [try_candidates, hp] using he⟩
    · by_cases hl : can_load p size
      · right
        exact ⟨p, List.mem_cons_self p rest, hl, by simp [try_candidates, hp, hl]⟩
      · rcases ih with h | ⟨q, hq, hcl, he⟩
        · left; simpa [try_candidates, hp, hl] using h
        · right
          exact ⟨q, List.mem_cons_of_mem p hq, hcl, by simpa [try_candidates, hp, hl] using he⟩

/-- When no candidate loads, the loop falls through to the default font. -/
theorem try_candidates_all_fail (can_load : String → Nat → Bool) (size : Nat)
    (h : ∀ p, can_load p size = false) :
    ∀ cs : List String, try_candidates can_load size cs = FontHandle.load_default := by
  intro cs
  induction cs with
  | nil => rfl
  | cons p rest ih => simp [try_candidates, h p, ih]

/-- No line is longer than `max_line_len`. -/
theorem max_line_len_ge (lines : List (List Char)) :
    ∀ l ∈ lines, l.length ≤ max_line_len lines := by
  induction lines with
  | nil => simp
  | cons a t ih =>
    intro l hl
    rcases List.mem_cons.mp hl with rfl | hl
    · exact le_max_left _ _
    · exact le_trans (ih l hl) (le_max_right _ _)

/-- `max_line_len` unfolds over a cons as a binary maximum. -/
theorem max_line_len_cons (a : List Char) (t : List (List Char)) :
    max_line_len (a :: t) = max a.length (max_line_len t) := rfl

/-- On a non-empty canvas, `max_line_len` is the length of some line, hence
the Python `max(len(line) for line in ascii_lines)`. -/
theorem max_line_len_attained (lines : List (List Char)) (h : lines ≠ []) :
    ∃ l ∈ lines, max_line_len lines = l.length := by
  induction lines with
  | nil => exact absurd rfl h
  | cons a t ih =>
    cases t with
    | nil => exact ⟨a, List.mem_cons_self a [], by simp [max_line_len]⟩
    | cons b t2 =>
      obtain ⟨l, hl, he⟩ := ih (by simp)
      rcases le_total (max_line_len (b :: t2)) a.length with hle | hle
      · exact ⟨a, List.mem_cons_self a _, by rw [max_line_len_cons, Nat.max_eq_left hle]⟩
      · exact ⟨l, List.mem_cons_of_mem a hl, by rw [max_line_len_cons, Nat.max_eq_right hle, he]⟩

/-- Whatever the selected code, the code component of a successful render is
that code. -/
theorem render_with_code_snd (can_load : String → Nat → Bool)
    (raster : FontHandle → Char → List Nat) (cfg : AppConfig)
    (code_rng : String × Rng) :
    (render_with_code can_load raster cfg code_rng).1.map Prod.snd =
      (render_with_code can_load raster cfg code_rng).1.map (fun _ => code_rng.1) := by
  unfold render_with_code
  split <;> simp [Except.map]

/-- C3: for every palette of length at least 2 and luminance p in [0,255],
the ASCII Mapper maps p to the palette character at index
p * (palette_length - 1) / 255 (integer division); the index stays in range,
the map is monotone in p, a pure-black grid maps to only the darkest (first)
palette character and a pure-white grid to only the lightest (last) one. -/
theorem ascii_mapper_spec (palette : List Char) (hpal : 2 ≤ palette.length) :
    (∀ p, char_of_lum palette p = palette[p * (palette.length - 1) / 255]?) ∧
    (∀ p, p ≤ 255 → ascii_index palette.length p < palette.length) ∧
    (∀ p q, p ≤ q → ascii_index palette.length p ≤ ascii_index palette.length q) ∧
    (∃ c0, palette.head? = some c0 ∧ ∀ pix : List Nat, (∀ p ∈ pix, p = 0) →
      map_lums palette pix = Except.ok (List.replicate pix.length c0)) ∧
    (∃ c9, palette.getLast? = some c9 ∧ ∀ pix : List Nat, (∀ p ∈ pix, p = 255) →
      map_lums palette pix = Except.ok (List.replicate pix.length c9)) := by
  obtain ⟨a, t, rfl⟩ : ∃ a t, palette = a :: t := by
    cases palette with
    | nil => simp at hpal
    | cons a t => exact ⟨a, t, rfl⟩
  refine ⟨fun p => rfl, ?_, fun p q h => ascii_index_mono _ h, ?_, ?_⟩
  · intro p hp
    exact ascii_index_lt _ p (by simp) hp
  · refine ⟨a, rfl, fun pix hall => map_lums_of_forall _ a pix ?_⟩
    intro p hp
    rw [hall p hp, char_of_lum_zero]
    rfl
  · have hne : (a :: t : List Char) ≠ [] := by simp
    refine ⟨(a :: t).getLast hne, List.getLast?_eq_getLast _ hne,
      fun pix hall => map_lums_of_forall _ _ pix ?_⟩
    intro p hp
    rw [hall p hp, char_of_lum_255]
    exact List.getLast?_eq_getLast _ hne

/-- C3 witness: the conclusion instantiated at the concrete two-character
palette. -/
theorem ascii_mapper_spec_witness :
    2 ≤ palette_two.length ∧
    ((∀ p, char_of_lum palette_two p = palette_two[p * (palette_two.length - 1) / 255]?) ∧
     (∀ p, p ≤ 255 → ascii_index palette_two.length p < palette_two.length) ∧
     (∀ p q, p ≤ q → ascii_index palette_two.length p ≤ ascii_index palette_two.length q) ∧
     (∃ c0, palette_two.head? = some c0 ∧ ∀ pix : List Nat, (∀ p ∈ pix, p = 0) →
       map_lums palette_two pix = Except.ok (List.replicate pix.length c0)) ∧
     (∃ c9, palette_two.getLast? = some c9 ∧ ∀ pix : List Nat, (∀ p ∈ pix, p = 255) →
       map_lums palette_two pix = Except.ok (List.replicate pix.length c9))) :=
  ⟨by decide, ascii_mapper_spec palette_two (by decide)⟩

/-- C7: with a palette of exactly two characters, the computed palette index
p * (2 - 1) / 255 is at most 1 for every byte-range luminance, indexing never
goes out of range, and every mapped glyph string contains only the two
palette characters. -/
theorem two_char_palette_safe (c0 c1 : Char) :
    (∀ p, p ≤ 255 → ascii_index 2 p ≤ 1) ∧
    (∀ p, p ≤ 255 → char_of_lum [c0, c1] p = some c0 ∨ char_of_lum [c0, c1] p = some c1) ∧
    (∀ pix : List Nat, (∀ p ∈ pix, p ≤ 255) →
      ∃ s, map_lums [c0, c1] pix = Except.ok s ∧ ∀ c ∈ s, c = c0 ∨ c = c1) := by
  refine ⟨fun p hp => ascii_index_le 2 p hp, fun p hp => char_of_lum_pair c0 c1 p hp, ?_⟩
  intro pix hall
  have hm : ∀ p ∈ pix, ∃ c, char_of_lum [c0, c1] p = some c ∧ c ∈ [c0, c1] := by
    intro p hp
    rcases char_of_lum_pair c0 c1 p (hall p hp) with h | h
    · exact ⟨c0, h, by simp⟩
    · exact ⟨c1, h, by simp⟩
  obtain ⟨s, hs, hmem⟩ := map_lums_mem [c0, c1] pix hm
  exact ⟨s, hs, fun c hc => by simpa using hmem c hc⟩

/-- C7 witness: the conclusion instantiated at a concrete two-character
palette, with a sample luminance mapped through the inner implication. -/
theorem two_char_palette_safe_witness :
    char_of_lum ['#', ' '] 200 = some '#' ∨ char_of_lum ['#', ' '] 200 = some ' ' :=
  (two_char_palette_safe '#' ' ').2.1 200 (by norm_num)

/-- C4: for every length at least 1 and every generator state,
generate_code returns a string of exactly that many characters, each drawn
from the 36-character alphabet of uppercase letters and digits. -/
theorem generate_code_spec (length : Int) (rng : Rng) (h : 1 ≤ length) :
    ((generate_code length rng).1.length : Int) = length ∧
    (∀ c ∈ (generate_code length rng).1.data, c ∈ code_alphabet) ∧
    code_alphabet.length = 36 ∧
    (∀ c ∈ code_alphabet, ('A' ≤ c ∧ c ≤ 'Z') ∨ ('0' ≤ c ∧ c ≤ '9')) := by
  refine ⟨?_, ?_, by decide, by decide⟩
  · have hl : (generate_code length rng).1.length = length.toNat := by
      show (rand_choices code_alphabet length.toNat rng).1.length = length.toNat
      exact rand_choices_length _ _ _
    rw [hl]
    exact Int.toNat_of_nonneg (by omega)
  · intro c hc
    have hd : (generate_code length rng).1.data =
        (rand_choices code_alphabet length.toNat rng).1 := rfl
    rw [hd] at hc
    exact rand_choices_mem code_alphabet (by decide) _ _ c hc

/-- C4 witness: the conclusion at length 4 and a concrete generator state. -/
theorem generate_code_spec_witness :
    (1 : Int) ≤ 4 ∧
    (((generate_code 4 (Rng.mk 3)).1.length : Int) = 4 ∧
     (∀ c ∈ (generate_code 4 (Rng.mk 3)).1.data, c ∈ code_alphabet) ∧
     code_alphabet.length = 36 ∧
     (∀ c ∈ code_alphabet, ('A' ≤ c ∧ c ≤ 'Z') ∨ ('0' ≤ c ∧ c ≤ '9'))) :=
  ⟨by norm_num, generate_code_spec 4 ⟨3⟩ (by norm_num)⟩

/-- C10 counterexample: generate_code called with length 0 returns normally
with the empty string (and an untouched generator); no parameter-validation
error is raised anywhere in its control flow. -/
theorem generate_code_zero_returns_empty :
    generate_code 0 (Rng.mk 0) = ("", Rng.mk 0) := rfl

/-- C10 amended: for every length at most 0, generate_code raises nothing
and returns the empty string, leaving the generator state unused. -/
theorem generate_code_nonpositive_empty (length : Int) (rng : Rng)
    (h : length ≤ 0) : generate_code length rng = ("", rng) := by
  unfold generate_code
  rw [Int.toNat_of_nonpos h]
  rfl

/-- C10 amended witness: the amended claim at length -3. -/
theorem generate_code_nonpositive_empty_witness :
    (-3 : Int) ≤ 0 ∧ generate_code (-3) (Rng.mk 7) = ("", Rng.mk 7) :=
  ⟨by norm_num, generate_code_nonpositive_empty (-3) ⟨7⟩ (by norm_num)⟩

/-- C8: the font resolver is a total function: it returns either a TrueType
font successfully loaded from its candidate list or the built-in fallback;
when nothing loads it returns the fallback, and a loadable preferred path is
honoured first. -/
theorem load_font_total_fallback (can_load : String → Nat → Bool)
    (preferred : Option String) (size : Nat) :
    (load_font can_load preferred size = FontHandle.load_default ∨
      ∃ p ∈ font_candidates preferred, can_load p size = true ∧
        load_font can_load preferred size = FontHandle.truetype p size) ∧
    ((∀ p, can_load p size = false) →
      load_font can_load preferred size = FontHandle.load_default) ∧
    (∀ pref : String, pref ≠ "" → can_load pref size = true →
      load_font can_load (some pref) size = FontHandle.truetype pref size) := by
  refine ⟨try_candidates_spec can_load size _,
    fun h => try_candidates_all_fail can_load size h _, ?_⟩
  intro pref hne hcl
  simp [load_font, font_candidates, try_candidates, hne, hcl]

/-- C8 witness: with an oracle that loads nothing, the resolver returns the
fallback font. -/
theorem load_font_total_fallback_witness :
    load_font can_load_none none 9 = FontHandle.load_default :=
  (load_font_total_fallback can_load_none none 9).2.1 (fun _ => rfl)

/-- C9: for every non-empty ASCII canvas the raster width is
(font_size / 2 + spacing) times the longest line length and the height is
(font_size + 2) times the line count; max_line_len is indeed the longest
line length. -/
theorem make_image_dimensions (can_load : String → Nat → Bool)
    (lines : List (List Char)) (params : RenderParams) (rng : Rng)
    (h : lines ≠ []) :
    (make_image can_load lines params rng).1.width =
      (params.font_size / 2 + params.spacing) * max_line_len lines ∧
    (make_image can_load lines params rng).1.height =
      (params.font_size + 2) * lines.length ∧
    (∀ l ∈ lines, l.length ≤ max_line_len lines) ∧
    (∃ l ∈ lines, max_line_len lines = l.length) := by
  refine ⟨?_, ?_, max_line_len_ge lines, max_line_len_attained lines h⟩
  · simp [make_image, h]
  · simp [make_image, h]

/-- C9 witness: the dimension equations at a concrete one-line canvas with
the default render parameters. -/
theorem make_image_dimensions_witness :
    lines_one ≠ [] ∧
    ((make_image can_load_none lines_one rp_default (Rng.mk 0)).1.width =
      (rp_default.font_size / 2 + rp_default.spacing) * max_line_len lines_one ∧
     (make_image can_load_none lines_one rp_default (Rng.mk 0)).1.height =
      (rp_default.font_size + 2) * lines_one.length ∧
     (∀ l ∈ lines_one, l.length ≤ max_line_len lines_one) ∧
     (∃ l ∈ lines_one, max_line_len lines_one = l.length)) :=
  ⟨by decide, make_image_dimensions can_load_none lines_one rp_default ⟨0⟩ (by decide)⟩

/-- C2: with a configured seed and a fixed code, two calls to
generate_image_from_cfg with the identical configuration produce identical
results (image and code), whatever the state of the shared process-wide
generator at each call. -/
theorem generate_image_two_run_determinism (can_load : String → Nat → Bool)
    (raster : FontHandle → Char → List Nat) (cfg : AppConfig) (s : Int)
    (c : String) (g1 g2 : Rng) (hs : cfg.random_seed = some s)
    (_hc : cfg.fixed_code = some c) :
    (generate_image_from_cfg can_load raster cfg g1).1 =
      (generate_image_from_cfg can_load raster cfg g2).1 := by
  unfold generate_image_from_cfg
  rw [hs]

/-- C2 witness: two runs from distinct shared-generator states coincide for
a concrete seeded configuration with a fixed code. -/
theorem generate_image_two_run_determinism_witness :
    cfg_seeded.random_seed = some 42 ∧ cfg_seeded.fixed_code = some "AB" ∧
    (generate_image_from_cfg can_load_none raster_one cfg_seeded (Rng.mk 0)).1 =
      (generate_image_from_cfg can_load_none raster_one cfg_seeded (Rng.mk 99)).1 :=
  ⟨rfl, rfl, generate_image_two_run_determinism can_load_none raster_one cfg_seeded
    42 "AB" ⟨0⟩ ⟨99⟩ rfl rfl⟩

/-- C5 counterexample: with fixed_code set to the empty string, the Python
`or` of captcha.py line 265 falls through to the generator: the returned
code has the configured length 6 and is not the supplied empty string, so
the pass-through contract fails for the empty string. -/
theorem fixed_code_empty_not_passthrough :
    ((generate_image_from_cfg can_load_none raster_one cfg_empty_fixed
        (Rng.mk 0)).1.map Prod.snd).toOption.map String.length = some 6 ∧
    (generate_image_from_cfg can_load_none raster_one cfg_empty_fixed
        (Rng.mk 0)).1.map Prod.snd ≠ Except.ok "" := by
  constructor
  · rfl
  · intro heq
    have h6 : ((generate_image_from_cfg can_load_none raster_one cfg_empty_fixed
        (Rng.mk 0)).1.map Prod.snd).toOption.map String.length = some 6 := rfl
    rw [heq] at h6
    simp only [Except.toOption, Option.map] at h6
    exact absurd h6 (by decide)

/-- C5 amended: a non-empty fixed code bypasses the generator and is the
code component of whatever result generate_image_from_cfg returns; the empty
string is treated as unset by the Python `or` and triggers generation. -/
theorem fixed_code_passthrough_nonempty (can_load : String → Nat → Bool)
    (raster : FontHandle → Char → List Nat) (cfg : AppConfig) (g : Rng)
    (c : String) (hc : cfg.fixed_code = some c) (hne : c ≠ "") :
    (generate_image_from_cfg can_load raster cfg g).1.map Prod.snd =
      (generate_image_from_cfg can_load raster cfg g).1.map (fun _ => c) := by
  have key : ∀ rng : Rng,
      (generate_from_cfg_with can_load raster cfg rng).1.map Prod.snd =
        (generate_from_cfg_with can_load raster cfg rng).1.map (fun _ => c) := by
    intro rng
    have hsel : select_code cfg rng = (c, rng) := by
      unfold select_code
      rw [hc]
      exact if_neg hne
    unfold generate_from_cfg_with
    rw [hsel]
    exact render_with_code_snd can_load raster cfg (c, rng)
  unfold generate_image_from_cfg
  cases hseed : cfg.random_seed with
  | none => simpa using key g
  | some s => simpa using key (mk_random s)

/-- C5 amended witness: the pass-through equation at a concrete
configuration fixing the code "AB". -/
theorem fixed_code_passthrough_nonempty_witness :
    cfg_seeded.fixed_code = some "AB" ∧ ("AB" : String) ≠ "" ∧
    (generate_image_from_cfg can_load_none raster_one cfg_seeded
        (Rng.mk 0)).1.map Prod.snd =
      (generate_image_from_cfg can_load_none raster_one cfg_seeded
        (Rng.mk 0)).1.map (fun _ => ("AB" : String)) :=
  ⟨rfl, by decide, fixed_code_passthrough_nonempty can_load_none raster_one
    cfg_seeded ⟨0⟩ "AB" rfl (by decide)⟩

/-- C6 counterexample: a one-character palette passes load_config untouched
(no configuration error exists for it) and then reaches and survives the
luminance-to-character mapping step, producing glyph lines; it is never
validated away. -/
theorem short_palette_reaches_mapping :
    (load_config user_short_palette).ascii_chars = "#" ∧
    text_to_ascii_lines can_load_none raster_pair none 1 2 "#".data "A".data =
      Except.ok [['#'], ['#']] :=
  ⟨rfl, rfl⟩

/-- C6 amended: load_config performs no palette-length validation and passes
any supplied ascii_chars value through to the configuration; a palette of
length < 2 reaches the mapping step, where a one-character palette maps
every luminance to its single character and the empty palette faults with an
out-of-range index. -/
theorem palette_not_validated (user : UserConfig) (s : String)
    (h : user.ascii_chars = some s) :
    (load_config user).ascii_chars = s ∧
    (∀ c p, s.data = [c] → char_of_lum s.data p = some c) ∧
    (s.data = [] → ∀ p, char_of_lum s.data p = none) := by
  refine ⟨by simp [load_config, h], ?_, ?_⟩
  · intro c p hs
    rw [hs]
    unfold char_of_lum ascii_index
    simp
  · intro hs p
    rw [hs]
    rfl

/-- C6 amended witness: the pass-through at the concrete one-character user
palette. -/
theorem palette_not_validated_witness :
    user_short_palette.ascii_chars = some "#" ∧
    ((load_config user_short_palette).ascii_chars = "#" ∧
     (∀ c p, "#".data = [c] → char_of_lum "#".data p = some c) ∧
     ("#".data = [] → ∀ p, char_of_lum "#".data p = none)) :=
  ⟨rfl, palette_not_validated user_short_palette "#" rfl⟩

/-- C1: a length-0 code does produce the minimal 2x2 blank image, but a
non-empty all-spaces code makes _text_to_ascii_lines raise IndexError at
`blocks[0]` (captcha.py line 173) after the space filter empties the block
list, so the pipeline crashes instead of producing the documented minimal
image. -/
theorem degenerate_code_pipeline :
    text_to_ascii_lines can_load_none raster_one none 40 2 default_palette
        " ".data = Except.error "IndexError: list index out of range" ∧
    text_to_ascii_lines can_load_none raster_one none 40 2 default_palette
        "".data = Except.ok [] ∧
    make_image can_load_none [] rp_default (Rng.mk 0) =
      ({ width := 2, height := 2, ops := [] }, Rng.mk 0) :=
  ⟨rfl, rfl, rfl⟩
